import Mathlib

/-!
Shallow embedding of the arduino-serial repository: the Arduino sketch
`serial_sketch.ino` (command handlers, the command registry and the
reinitialize action) together with the watchdog and host-side registry
described by the specification.  Device-side mutable globals become fields
of `DeviceState`; each handler becomes a function
`Int -> DeviceState -> DeviceState × List Msg` returning the new state and
the serial messages it emits.
-/

/-- Arduino `constrain` macro: clamp `amt` into the closed interval from
`low` to `high`. -/
def constrain (amt low high : Int) : Int :=
  if amt < low then low else if amt > high then high else amt

/-- Kind of a framed message sent from the device back to the host:
the sketch sends init messages via `sendInitMessage` and update messages
via `sendUpdateMessage`. -/
inductive MsgKind where
  | init
  | update
  deriving DecidableEq

/-- One device-to-host message: kind, command name and integer value. -/
structure Msg where
  kind : MsgKind
  name : String
  value : Int
  deriving DecidableEq

/-- Run mode of an Adafruit DC motor as used by the sketch:
`RELEASE`, `FORWARD` or `BACKWARD`. -/
inductive MotorMode where
  | release
  | forward
  | backward
  deriving DecidableEq

/-- State of one Adafruit DC motor: the last speed set with `setSpeed`
and the last mode set with `run`.  `run(RELEASE)` changes only the mode. -/
structure MotorState where
  speed : Int
  mode : MotorMode
  deriving DecidableEq

/-- The device-side mutable globals of `serial_sketch.ino` that the command
handlers read and write: blink interval (init and current), servo init
values and last written servo positions, motor init values and motor
states. -/
structure DeviceState where
  blinkIntervalInit : Int
  blinkInterval : Int
  servo01Init : Int
  servo02Init : Int
  servo01Pos : Int
  servo02Pos : Int
  motor01Init : Int
  motor02Init : Int
  motor01 : MotorState
  motor02 : MotorState
  deriving DecidableEq

/-- Command name constant `BLINK` from the sketch. -/
def BLINK : String := "BLINK"

/-- Command name constant `SERVO_01` from the sketch. -/
def SERVO_01 : String := "SRV1"

/-- Command name constant `SERVO_02` from the sketch. -/
def SERVO_02 : String := "SRV2"

/-- Command name constant `MOTOR_01` from the sketch. -/
def MOTOR_01 : String := "MTR1"

/-- Command name constant `MOTOR_02` from the sketch. -/
def MOTOR_02 : String := "MTR2"

/-- `sendInitMessage(name, value)` from the missing serial handler header:
emits one init message for `name` carrying `value`. -/
def sendInitMessage (name : String) (value : Int) : List Msg :=
  [⟨MsgKind.init, name, value⟩]

/-- `sendUpdateMessage(name, value)` from the missing serial handler header:
emits one update message for `name` carrying `value`. -/
def sendUpdateMessage (name : String) (value : Int) : List Msg :=
  [⟨MsgKind.update, name, value⟩]

/-- `updateBlinkIntervalInit`: init handler for `BLINK`; stores the new init
value and sends an init message. -/
def updateBlinkIntervalInit (newBlinkIntervalInit : Int) (s : DeviceState) :
    DeviceState × List Msg :=
  ({ s with blinkIntervalInit := newBlinkIntervalInit },
   sendInitMessage BLINK newBlinkIntervalInit)

/-- `setBlinkInterval`: update handler for `BLINK`.  A non-positive value
resets the blink interval to its init value (and sends nothing); a positive
value is clamped into `[10, 10000]`, stored, and echoed in an update
message. -/
def setBlinkInterval (newBlinkInterval : Int) (s : DeviceState) :
    DeviceState × List Msg :=
  if newBlinkInterval ≤ 0 then
    ({ s with blinkInterval := s.blinkIntervalInit }, [])
  else
    ({ s with blinkInterval := constrain newBlinkInterval 10 10000 },
     sendUpdateMessage BLINK (constrain newBlinkInterval 10 10000))

/-- `updateServo01Init`: init handler for `SERVO_01`. -/
def updateServo01Init (newInitValue : Int) (s : DeviceState) :
    DeviceState × List Msg :=
  ({ s with servo01Init := newInitValue }, sendInitMessage SERVO_01 newInitValue)

/-- `updateServo02Init`: init handler for `SERVO_02`. -/
def updateServo02Init (newInitValue : Int) (s : DeviceState) :
    DeviceState × List Msg :=
  ({ s with servo02Init := newInitValue }, sendInitMessage SERVO_02 newInitValue)

/-- `setServo01`: update handler for `SERVO_01`; writes the value clamped
into `[0, 180]` to the servo and sends an update message carrying the
original, unclamped value. -/
def setServo01 (servoValue : Int) (s : DeviceState) : DeviceState × List Msg :=
  ({ s with servo01Pos := constrain servoValue 0 180 },
   sendUpdateMessage SERVO_01 servoValue)

/-- `setServo02`: update handler for `SERVO_02`; same shape as `setServo01`. -/
def setServo02 (servoValue : Int) (s : DeviceState) : DeviceState × List Msg :=
  ({ s with servo02Pos := constrain servoValue 0 180 },
   sendUpdateMessage SERVO_02 servoValue)

/-- `updateMotor01Init`: init handler for `MOTOR_01`. -/
def updateMotor01Init (newInitValue : Int) (s : DeviceState) :
    DeviceState × List Msg :=
  ({ s with motor01Init := newInitValue }, sendInitMessage MOTOR_01 newInitValue)

/-- `updateMotor02Init`: init handler for `MOTOR_02`. -/
def updateMotor02Init (newInitValue : Int) (s : DeviceState) :
    DeviceState × List Msg :=
  ({ s with motor02Init := newInitValue }, sendInitMessage MOTOR_02 newInitValue)

/-- `setMotorSpeed(motor, speed)`: clamp the speed into `[-255, 255]`;
zero releases the motor (mode only, no `setSpeed` call), a positive value
runs it forward at that speed, a negative value runs it backward at the
absolute value (Arduino `abs` macro: `x > 0 ? x : -x`). -/
def setMotorSpeed (speedArg : Int) (m : MotorState) : MotorState :=
  let speed := constrain speedArg (-255) 255
  if speed = 0 then
    { m with mode := MotorMode.release }
  else if speed > 0 then
    { speed := speed, mode := MotorMode.forward }
  else
    { speed := if speed > 0 then speed else -speed, mode := MotorMode.backward }

/-- `setMotor01`: update handler for `MOTOR_01`; applies `setMotorSpeed` to
motor 1 and sends an update message carrying the original value. -/
def setMotor01 (motorValue : Int) (s : DeviceState) : DeviceState × List Msg :=
  ({ s with motor01 := setMotorSpeed motorValue s.motor01 },
   sendUpdateMessage MOTOR_01 motorValue)

/-- `setMotor02`: update handler for `MOTOR_02`. -/
def setMotor02 (motorValue : Int) (s : DeviceState) : DeviceState × List Msg :=
  ({ s with motor02 := setMotorSpeed motorValue s.motor02 },
   sendUpdateMessage MOTOR_02 motorValue)

/-- Type of a device-side update handler: the sketch's
`void function(int)` acting on the device globals and emitting messages. -/
def CmdHandler : Type :=
  Int → DeviceState → DeviceState × List Msg

/-- The command-handler registry built by `registerCommandHandlers()`,
in registration order: BLINK, SRV1, SRV2, MTR1, MTR2. -/
def commandHandlers : List (String × CmdHandler) :=
  [(BLINK, setBlinkInterval),
   (SERVO_01, setServo01),
   (SERVO_02, setServo02),
   (MOTOR_01, setMotor01),
   (MOTOR_02, setMotor02)]

/-- The registered command names in registration order. -/
def commandNames : List String :=
  [BLINK, SERVO_01, SERVO_02, MOTOR_01, MOTOR_02]

/-- The stored init value of a registered command. -/
def initValueOf (name : String) (s : DeviceState) : Int :=
  if name = BLINK then s.blinkIntervalInit
  else if name = SERVO_01 then s.servo01Init
  else if name = SERVO_02 then s.servo02Init
  else if name = MOTOR_01 then s.motor01Init
  else s.motor02Init

/-- The effective signed value a motor currently applies: released motors
drive nothing, forward motors drive at `speed`, backward motors at
`-speed`. -/
def motorValue (m : MotorState) : Int :=
  match m.mode with
  | MotorMode.release => 0
  | MotorMode.forward => m.speed
  | MotorMode.backward => -m.speed

/-- The current value of a registered command as observable on the device:
the blink interval, the last written servo position, or the effective motor
value. -/
def currentValueOf (name : String) (s : DeviceState) : Int :=
  if name = BLINK then s.blinkInterval
  else if name = SERVO_01 then s.servo01Pos
  else if name = SERVO_02 then s.servo02Pos
  else if name = MOTOR_01 then motorValue s.motor01
  else motorValue s.motor02

/-- `initializeCommands()` from the sketch, installed as the watchdog's
reinitialize action: directly resets `blinkInterval` to `blinkIntervalInit`,
then calls the servo and motor update handlers with their init values. -/
def initializeCommands (s : DeviceState) : DeviceState × List Msg :=
  let s1 := { s with blinkInterval := s.blinkIntervalInit }
  let r2 := setServo01 s1.servo01Init s1
  let r3 := setServo02 r2.1.servo02Init r2.1
  let r4 := setMotor01 r3.1.motor01Init r3.1
  let r5 := setMotor02 r4.1.motor02Init r4.1
  (r5.1, r2.2 ++ r3.2 ++ r4.2 ++ r5.2)

/-- Invoke each handler of a registry segment, in order, with the command's
current init value, threading the device state and accumulating the emitted
messages.  Applied to the whole registry this is the specification's wording
of `reinitializeAll`. -/
def runHandlersWithInit (hs : List (String × CmdHandler))
    (start : DeviceState × List Msg) : DeviceState × List Msg :=
  hs.foldl
    (fun acc p =>
      let r := p.2 (initValueOf p.1 acc.1) acc.1
      (r.1, acc.2 ++ r.2))
    start

/-- The reinitialize action as worded by the specification: invoke every
registered update handler with its corresponding init value, in
registration order. -/
def reinitializeAllSpec (s : DeviceState) : DeviceState × List Msg :=
  runHandlersWithInit commandHandlers (s, [])

/-- `dispatch(name, value)`: look the name up in the command-handler
registry and invoke the handler; an unregistered name is silently
ignored. -/
def dispatch (name : String) (value : Int) (s : DeviceState) :
    DeviceState × List Msg :=
  match commandHandlers.find? (fun p => p.1 = name) with
  | some p => p.2 value s
  | none => (s, [])

/-- The scenario of the idempotence property: dispatch a command with its
own stored init value, then run the watchdog's reinitialize action. -/
def dispatchThenExpire (name : String) (s : DeviceState) : DeviceState :=
  (initializeCommands (dispatch name (initValueOf name s) s).1).1

/-- The clamp a command's update handler applies to a stored value:
none for `BLINK` on the reinitialize path, `[0, 180]` for servos,
`[-255, 255]` for motors. -/
def clampOf (name : String) (v : Int) : Int :=
  if name = BLINK then v
  else if name = SERVO_01 ∨ name = SERVO_02 then constrain v 0 180
  else constrain v (-255) 255

/-- Modelled from the spec: the watchdog state of the missing
`update_handler.h` — the time of the last received update and whether the
timeout has already fired for the current silence period (ARMED when
`expired = false`, EXPIRED when `expired = true`). -/
structure WatchdogState where
  lastUpdateTimestamp : Nat
  expired : Bool
  deriving DecidableEq

/-- Modelled from the spec: `checkForUpdateExpiration()`, called once per
`loop()` iteration.  On the ARMED to EXPIRED transition
(`now - lastUpdateTimestamp > timeout` while armed) it invokes the
registered reinitialize action once (the returned Bool); while EXPIRED it
does nothing. -/
def checkForUpdateExpiration (timeout now : Nat) (w : WatchdogState) :
    WatchdogState × Bool :=
  if w.expired = false ∧ timeout < now - w.lastUpdateTimestamp then
    ({ w with expired := true }, true)
  else
    (w, false)

/-- Modelled from the spec: the watchdog reset performed when a valid
update frame is dispatched — record the time and return to ARMED. -/
def watchdogReset (now : Nat) : WatchdogState :=
  { lastUpdateTimestamp := now, expired := false }

/-- Run the watchdog check over a run of silent loop iterations (no valid
frame dispatched), one check per iteration time; returns the final
watchdog state and how many times the reinitialize action fired. -/
def runSilent (timeout : Nat) : WatchdogState → List Nat → WatchdogState × Nat
  | w, [] => (w, 0)
  | w, t :: ts =>
    let r := checkForUpdateExpiration timeout t w
    let rest := runSilent timeout r.1 ts
    (rest.1, (if r.2 then 1 else 0) + rest.2)

/-- Modelled from the spec: the host-side registry maps registered command
names to their current values; `updateCommand` overwrites the value of a
registered name and fails with an unknown-command condition otherwise. -/
def updateCommand (reg : List (String × Int)) (commandName : String)
    (value : Int) : Except String (List (String × Int)) :=
  if (reg.find? fun p => p.1 = commandName).isSome then
    Except.ok (reg.map fun p => if p.1 = commandName then (p.1, value) else p)
  else
    Except.error "unknown command"

/-- Look up the current value stored for a command name in the host
registry. -/
def hostLookup (reg : List (String × Int)) (commandName : String) : Option Int :=
  (reg.find? fun p => p.1 = commandName).map (fun p => p.2)

/-- Modelled from the spec: one transmission cycle serializes every
registered command's current value, in order. -/
def transmissionCycle (reg : List (String × Int)) : List Msg :=
  reg.map fun p => ⟨MsgKind.update, p.1, p.2⟩

/-- A concrete device state with the sketch's power-on values: blink
interval 250, servo init 90, motor init 0. -/
def exState : DeviceState :=
  { blinkIntervalInit := 250
    blinkInterval := 250
    servo01Init := 90
    servo02Init := 90
    servo01Pos := 90
    servo02Pos := 90
    motor01Init := 0
    motor02Init := 0
    motor01 := { speed := 0, mode := MotorMode.release }
    motor02 := { speed := 0, mode := MotorMode.release } }

/-- A device state whose blink init value (5) lies below the update-handler
clamp range, separating direct reset from a handler call. -/
def exC1 : DeviceState :=
  { exState with blinkIntervalInit := 5, blinkInterval := 99 }

/-- A device state whose servo 1 init value (200) lies above the servo
clamp range. -/
def exC3 : DeviceState :=
  { exState with servo01Init := 200 }

/-- The effective motor value after `setMotorSpeed` is the input clamped
into `[-255, 255]`. -/
theorem motorValue_setMotorSpeed (v : Int) (m : MotorState) :
    motorValue (setMotorSpeed v m) = constrain v (-255) 255 := by
  unfold setMotorSpeed
  by_cases h1 : constrain v (-255) 255 = 0
  · simp [h1, motorValue]
  · by_cases h2 : constrain v (-255) 255 > 0
    · simp [h1, h2, motorValue]
    · simp [h1, h2, motorValue]

/-- The magnitude of the motor clamp is the magnitude of the input capped
at 255. -/
theorem constrain_natAbs (v : Int) :
    (constrain v (-255) 255).natAbs = min v.natAbs 255 := by
  unfold constrain; split_ifs <;> omega

/-- An expired watchdog never fires again and never rearms while the
silence continues. -/
theorem runSilent_expired (timeout : Nat) (ts : List Nat) :
    ∀ w : WatchdogState, w.expired = true → runSilent timeout w ts = (w, 0) := by
  induction ts with
  | nil => intro w h; rfl
  | cons t ts ih =>
    intro w h
    simp only [runSilent, checkForUpdateExpiration, h]
    simp [ih w h]

/-- Overwriting a registered entry makes the host lookup return the new
value. -/
theorem hostLookup_overwrite (name : String) (v : Int) :
    ∀ reg : List (String × Int),
      (reg.find? fun p => p.1 = name).isSome = true →
      hostLookup (reg.map fun p => if p.1 = name then (p.1, v) else p) name =
        some v := by
  intro reg
  induction reg with
  | nil => intro h; simp [List.find?] at h
  | cons p rest ih =>
    intro h
    by_cases hp : p.1 = name
    · simp [hostLookup, List.map, hp, List.find?_cons_of_pos]
    · simp only [List.map, if_neg hp]
      simp only [hostLookup] at ih ⊢
      rw [List.find?_cons_of_neg _ (by simpa using hp)]
      apply ih
      rw [List.find?_cons_of_neg _ (by simpa using hp)] at h
      exact h

/-- The current value a command ends with after the dispatch-then-expire
scenario: the init value, clamped by that command's handler. -/
theorem currentValue_dispatchThenExpire (s : DeviceState) (name : String)
    (h : name ∈ commandNames) :
    currentValueOf name (dispatchThenExpire name s) =
      clampOf name (initValueOf name s) := by
  fin_cases h
  · unfold dispatchThenExpire
    by_cases hb : s.blinkIntervalInit ≤ 0
    · simp [dispatch, commandHandlers, initValueOf, setBlinkInterval, hb,
        initializeCommands, setServo01, setServo02, setMotor01, setMotor02,
        currentValueOf, clampOf, BLINK, SERVO_01, SERVO_02, MOTOR_01, MOTOR_02]
    · simp [dispatch, commandHandlers, initValueOf, setBlinkInterval, hb,
        initializeCommands, setServo01, setServo02, setMotor01, setMotor02,
        currentValueOf, clampOf, BLINK, SERVO_01, SERVO_02, MOTOR_01, MOTOR_02]
  · rfl
  · rfl
  · simp [dispatchThenExpire, dispatch, commandHandlers, initValueOf,
      currentValueOf, clampOf, initializeCommands, setServo01, setServo02,
      setMotor01, setMotor02, motorValue_setMotorSpeed,
      BLINK, SERVO_01, SERVO_02, MOTOR_01, MOTOR_02]
  · simp [dispatchThenExpire, dispatch, commandHandlers, initValueOf,
      currentValueOf, clampOf, initializeCommands, setServo01, setServo02,
      setMotor01, setMotor02, motorValue_setMotorSpeed,
      BLINK, SERVO_01, SERVO_02, MOTOR_01, MOTOR_02]

/-- Claim C1, counterexample: on a state whose blink init value is 5, the
reinitialize action of the code differs from invoking every registered
update handler with its init value — the code leaves `blinkInterval = 5`
and emits no BLINK message, while the BLINK update handler would clamp to
10 and emit an update message. -/
theorem claim1_counterexample :
    initializeCommands exC1 ≠ reinitializeAllSpec exC1 := by decide

/-- Claim C1, amended: `initializeCommands` resets `blinkInterval` directly
to `blinkIntervalInit` without invoking the BLINK update handler (no
message with name BLINK is emitted), and invokes the remaining registered
update handlers (SRV1, SRV2, MTR1, MTR2) with their corresponding init
values, in registration order. -/
theorem claim1_reinitialize_order (s : DeviceState) :
    initializeCommands s =
      runHandlersWithInit (commandHandlers.drop 1)
        ({ s with blinkInterval := s.blinkIntervalInit }, []) ∧
    ∀ m ∈ (initializeCommands s).2, m.name ≠ BLINK := by
  refine ⟨rfl, ?_⟩
  intro m hm
  simp [initializeCommands, setServo01, setServo02, setMotor01, setMotor02,
    sendUpdateMessage] at hm
  rcases hm with h|h|h|h <;> subst h <;>
    simp [BLINK, SERVO_01, SERVO_02, MOTOR_01, MOTOR_02]

/-- Claim C1, witness: the amended statement evaluated at the power-on
state, and the SRV1 update message it emits is not a BLINK message. -/
theorem claim1_witness :
    initializeCommands exState =
      runHandlersWithInit (commandHandlers.drop 1)
        ({ exState with blinkInterval := exState.blinkIntervalInit }, []) ∧
    (⟨MsgKind.update, SERVO_01, 90⟩ : Msg).name ≠ BLINK :=
  ⟨(claim1_reinitialize_order exState).1,
   (claim1_reinitialize_order exState).2 ⟨MsgKind.update, SERVO_01, 90⟩
     (by decide)⟩

/-- Claim C2: over any nonempty run of silent loop iterations whose times
all lie beyond the timeout threshold, an armed watchdog fires the
reinitialize action exactly once, remains EXPIRED for the rest of the run,
and is rearmed (only) by the reset a valid dispatched update performs. -/
theorem claim2_watchdog_fires_once (timeout : Nat) (w : WatchdogState)
    (ts : List Nat) (harm : w.expired = false) (hne : ts ≠ [])
    (hsil : ∀ t ∈ ts, w.lastUpdateTimestamp + timeout < t) :
    (runSilent timeout w ts).2 = 1 ∧
    (runSilent timeout w ts).1.expired = true ∧
    ∀ now, (watchdogReset now).expired = false := by
  refine ?_
  cases ts with
  | nil => exact absurd rfl hne
  | cons t ts =>
    have ht := hsil t (List.mem_cons_self t ts)
    simp only [runSilent, checkForUpdateExpiration, harm]
    rw [if_pos (⟨trivial, show timeout < t - w.lastUpdateTimestamp by omega⟩ :
      True ∧ timeout < t - w.lastUpdateTimestamp)]
    simp [runSilent_expired timeout ts { w with expired := true } rfl,
      watchdogReset]

/-- Claim C2, witness: with timeout 100, an armed watchdog last updated at
time 0 fires exactly once over the silent iterations at times 150, 151 and
152. -/
theorem claim2_witness :
    (runSilent 100 ⟨0, false⟩ [150, 151, 152]).2 = 1 ∧
    (runSilent 100 ⟨0, false⟩ [150, 151, 152]).1.expired = true ∧
    ∀ now, (watchdogReset now).expired = false :=
  claim2_watchdog_fires_once 100 ⟨0, false⟩ [150, 151, 152] rfl (by decide)
    (by decide)

/-- Claim C3, counterexample: with servo 1 init value 200, dispatching
SRV1 with 200 and then running the reinitialize action leaves the servo at
180, not at its init value. -/
theorem claim3_counterexample :
    currentValueOf SERVO_01 (dispatchThenExpire SERVO_01 exC3) ≠
      initValueOf SERVO_01 exC3 := by decide

/-- Claim C3, amended: for every registered command, dispatching it with
its own init value and then running the reinitialize action leaves its
current value equal to the init value clamped into that handler's range
(for BLINK, exactly the init value); in particular the current value
equals the init value whenever the clamp leaves it unchanged. -/
theorem claim3_reinit_idempotent (s : DeviceState) (name : String)
    (h : name ∈ commandNames) :
    currentValueOf name (dispatchThenExpire name s) =
      clampOf name (initValueOf name s) ∧
    (clampOf name (initValueOf name s) = initValueOf name s →
      currentValueOf name (dispatchThenExpire name s) = initValueOf name s) := by
  have hmain := currentValue_dispatchThenExpire s name h
  exact ⟨hmain, fun hc => hmain.trans hc⟩

/-- Claim C3, witness: the amended statement at the power-on state for
MTR1, whose init value 0 is inside the motor clamp range, so the current
value after the scenario equals the init value. -/
theorem claim3_witness :
    currentValueOf MOTOR_01 (dispatchThenExpire MOTOR_01 exState) =
      initValueOf MOTOR_01 exState :=
  (claim3_reinit_idempotent exState MOTOR_01 (by decide)).2 (by decide)

/-- Claim C4: a non-positive value makes the blink update handler reset
the interval to its init value, while a positive value is clamped into
`[10, 10000]`. -/
theorem claim4_blink_reset_or_clamp (v : Int) (s : DeviceState) :
    (v ≤ 0 → (setBlinkInterval v s).1.blinkInterval = s.blinkIntervalInit) ∧
    (0 < v → (setBlinkInterval v s).1.blinkInterval = constrain v 10 10000) := by
  constructor
  · intro h; simp [setBlinkInterval, h]
  · intro h; simp [setBlinkInterval, show ¬v ≤ 0 by omega]

/-- Claim C4, witness: at the power-on state, input -5 resets the blink
interval to 250 and input 50000 is clamped to 10000. -/
theorem claim4_witness :
    (setBlinkInterval (-5) exState).1.blinkInterval =
      exState.blinkIntervalInit ∧
    (setBlinkInterval 50000 exState).1.blinkInterval =
      constrain 50000 10 10000 :=
  ⟨(claim4_blink_reset_or_clamp (-5) exState).1 (by decide),
   (claim4_blink_reset_or_clamp 50000 exState).2 (by decide)⟩

/-- Claim C5: the motor handler applies an effective speed whose magnitude
is the input magnitude capped at 255 — in particular input 300 drives the
motor forward at the maximum 255 — and the servo handlers clamp input -10
to the servo minimum 0 before writing the position. -/
theorem claim5_range_clamping (v : Int) (m : MotorState) (s : DeviceState) :
    (motorValue (setMotorSpeed v m)).natAbs = min v.natAbs 255 ∧
    setMotorSpeed 300 m = ⟨255, MotorMode.forward⟩ ∧
    (setServo01 (-10) s).1.servo01Pos = 0 ∧
    (setServo02 (-10) s).1.servo02Pos = 0 := by
  refine ⟨?_, rfl, rfl, rfl⟩
  rw [motorValue_setMotorSpeed]
  exact constrain_natAbs v

/-- Claim C6, counterexample: on the reset branch (input -1) the blink
update handler emits no update message at all, although it accepted the
value and reset the interval. -/
theorem claim6_counterexample :
    ¬∃ m ∈ (setBlinkInterval (-1) exState).2,
      m.kind = MsgKind.update ∧ m.name = BLINK := by decide

/-- Claim C6, amended: every servo and motor update handler emits exactly
one update message for its command; the blink update handler emits an
update message (carrying the clamped value) only for positive inputs and
emits nothing on its reset-on-nonpositive branch. -/
theorem claim6_update_messages (v : Int) (s : DeviceState) :
    (v ≤ 0 → (setBlinkInterval v s).2 = []) ∧
    (0 < v →
      (setBlinkInterval v s).2 = sendUpdateMessage BLINK (constrain v 10 10000)) ∧
    (setServo01 v s).2 = sendUpdateMessage SERVO_01 v ∧
    (setServo02 v s).2 = sendUpdateMessage SERVO_02 v ∧
    (setMotor01 v s).2 = sendUpdateMessage MOTOR_01 v ∧
    (setMotor02 v s).2 = sendUpdateMessage MOTOR_02 v := by
  refine ⟨?_, ?_, rfl, rfl, rfl, rfl⟩
  · intro h; simp [setBlinkInterval, h]
  · intro h; simp [setBlinkInterval, show ¬v ≤ 0 by omega]

/-- Claim C6, witness: at the power-on state, input -1 emits no message
and input 50 emits the BLINK update message carrying 50. -/
theorem claim6_witness :
    (setBlinkInterval (-1) exState).2 = [] ∧
    (setBlinkInterval 50 exState).2 = sendUpdateMessage BLINK (constrain 50 10 10000) :=
  ⟨(claim6_update_messages (-1) exState).1 (by decide),
   (claim6_update_messages 50 exState).2.1 (by decide)⟩

/-- Claim C7: host-side `updateCommand` on a name that was never
registered fails with the unknown-command error; on a registered name it
overwrites the stored current value, so the new value is carried by the
next transmission cycle. -/
theorem claim7_updateCommand (reg : List (String × Int)) (name : String)
    (v : Int) :
    (hostLookup reg name = none →
      updateCommand reg name v = Except.error "unknown command") ∧
    (∀ reg2, updateCommand reg name v = Except.ok reg2 →
      hostLookup reg2 name = some v ∧
      (⟨MsgKind.update, name, v⟩ : Msg) ∈ transmissionCycle reg2) := by
  constructor
  · intro h
    have hn : (reg.find? fun p => p.1 = name) = none := by
      cases hfind : reg.find? fun p => p.1 = name with
      | none => rfl
      | some q => simp [hostLookup, hfind] at h
    unfold updateCommand
    rw [if_neg (by simp [hn])]
  · intro reg2 h2
    unfold updateCommand at h2
    by_cases hr : (reg.find? fun p => p.1 = name).isSome = true
    · rw [if_pos hr] at h2
      have hreg2 : reg2 = reg.map fun p => if p.1 = name then (p.1, v) else p :=
        (Except.ok.injEq _ _ ▸ h2).symm
      subst hreg2
      have hl := hostLookup_overwrite name v reg hr
      refine ⟨hl, ?_⟩
      simp only [hostLookup] at hl
      rcases Option.map_eq_some.mp hl with ⟨q, hq, hqv⟩
      have hqmem := List.mem_of_find?_eq_some hq
      have hqname : q.1 = name := by
        have := List.find?_some hq
        simpa using this
      simp only [transmissionCycle]
      have hmem : (⟨MsgKind.update, q.1, q.2⟩ : Msg) ∈
          (reg.map fun p => if p.1 = name then (p.1, v) else p).map
            (fun p => (⟨MsgKind.update, p.1, p.2⟩ : Msg)) :=
        List.mem_map_of_mem _ hqmem
      rw [hqname, hqv] at hmem
      exact hmem
    · rw [if_neg hr] at h2
      exact absurd h2 (by simp)

/-- Claim C7, witness: updating X1 on an empty registry fails with the
unknown-command error; on a registry holding X1 at 0, the update to 50 is
stored and appears in the next transmission cycle. -/
theorem claim7_witness :
    updateCommand [] "X1" 50 = Except.error "unknown command" ∧
    hostLookup [("X1", 50)] "X1" = some 50 ∧
    (⟨MsgKind.update, "X1", 50⟩ : Msg) ∈ transmissionCycle [("X1", 50)] :=
  ⟨(claim7_updateCommand [] "X1" 50).1 rfl,
   ((claim7_updateCommand [("X1", 0)] "X1" 50).2 [("X1", 50)] rfl).1,
   ((claim7_updateCommand [("X1", 0)] "X1" 50).2 [("X1", 50)] rfl).2⟩

/-- Claim C8: for an input outside `[0, 180]` the servo handlers write the
clamped position but acknowledge with the original unclamped value, which
therefore differs from the position actually applied. -/
theorem claim8_servo_ack_unclamped (v : Int) (s : DeviceState)
    (h : v < 0 ∨ 180 < v) :
    (setServo01 v s).1.servo01Pos = constrain v 0 180 ∧
    (setServo01 v s).2 = sendUpdateMessage SERVO_01 v ∧
    (setServo02 v s).1.servo02Pos = constrain v 0 180 ∧
    (setServo02 v s).2 = sendUpdateMessage SERVO_02 v ∧
    constrain v 0 180 ≠ v := by
  refine ⟨rfl, rfl, rfl, rfl, ?_⟩
  unfold constrain; split_ifs <;> omega

/-- Claim C8, witness: input 200 writes position 180 to servo 1 but
acknowledges 200. -/
theorem claim8_witness :
    (setServo01 200 exState).1.servo01Pos = constrain 200 0 180 ∧
    (setServo01 200 exState).2 = sendUpdateMessage SERVO_01 200 ∧
    (setServo02 200 exState).1.servo02Pos = constrain 200 0 180 ∧
    (setServo02 200 exState).2 = sendUpdateMessage SERVO_02 200 ∧
    constrain 200 0 180 ≠ 200 :=
  claim8_servo_ack_unclamped 200 exState (Or.inr (by decide))

/-- Claim C9: the motor handler maps the sign of the clamped value to the
motor mode — zero releases the motor without a speed command, a positive
clamped value runs FORWARD at that speed, a negative one runs BACKWARD at
its absolute value — and whenever a speed is set it is non-negative. -/
theorem claim9_motor_sign_mode (v : Int) (m : MotorState) :
    (constrain v (-255) 255 = 0 →
      setMotorSpeed v m = { m with mode := MotorMode.release }) ∧
    (0 < constrain v (-255) 255 →
      setMotorSpeed v m = ⟨constrain v (-255) 255, MotorMode.forward⟩) ∧
    (constrain v (-255) 255 < 0 →
      setMotorSpeed v m = ⟨-(constrain v (-255) 255), MotorMode.backward⟩) ∧
    (constrain v (-255) 255 ≠ 0 → 0 ≤ (setMotorSpeed v m).speed) := by
  refine ⟨?_, ?_, ?_, ?_⟩
  · intro h; simp [setMotorSpeed, h]
  · intro h
    simp [setMotorSpeed, show constrain v (-255) 255 ≠ 0 by omega, h]
  · intro h
    simp [setMotorSpeed, show constrain v (-255) 255 ≠ 0 by omega,
      show ¬0 < constrain v (-255) 255 by omega]
  · intro h
    by_cases hc : 0 < constrain v (-255) 255
    · simp [setMotorSpeed, h, hc]
      omega
    · simp [setMotorSpeed, h, hc]
      omega

/-- Claim C9, witness: input 0 releases a forward-running motor keeping
its stored speed, input 300 runs forward at 255, input -300 runs backward
at 255, and the speed set for -300 is non-negative. -/
theorem claim9_witness :
    setMotorSpeed 0 ⟨7, MotorMode.forward⟩ = ⟨7, MotorMode.release⟩ ∧
    setMotorSpeed 300 ⟨0, MotorMode.release⟩ = ⟨255, MotorMode.forward⟩ ∧
    setMotorSpeed (-300) ⟨0, MotorMode.release⟩ = ⟨255, MotorMode.backward⟩ ∧
    0 ≤ (setMotorSpeed (-300) ⟨0, MotorMode.release⟩).speed :=
  ⟨(claim9_motor_sign_mode 0 ⟨7, MotorMode.forward⟩).1 (by decide),
   (claim9_motor_sign_mode 300 ⟨0, MotorMode.release⟩).2.1 (by decide),
   (claim9_motor_sign_mode (-300) ⟨0, MotorMode.release⟩).2.2.1 (by decide),
   (claim9_motor_sign_mode (-300) ⟨0, MotorMode.release⟩).2.2.2 (by decide)⟩

/-- Claim C10: each init handler only stores the new init value and sends
one init message; the current value of every registered command — blink
interval, servo positions and motor outputs — is left unchanged. -/
theorem claim10_init_frame_effect (v : Int) (s : DeviceState) :
    (updateBlinkIntervalInit v s =
      ({ s with blinkIntervalInit := v }, sendInitMessage BLINK v)) ∧
    (∀ n ∈ commandNames,
      currentValueOf n (updateBlinkIntervalInit v s).1 = currentValueOf n s) ∧
    (updateServo01Init v s =
      ({ s with servo01Init := v }, sendInitMessage SERVO_01 v)) ∧
    (∀ n ∈ commandNames,
      currentValueOf n (updateServo01Init v s).1 = currentValueOf n s) ∧
    (updateServo02Init v s =
      ({ s with servo02Init := v }, sendInitMessage SERVO_02 v)) ∧
    (∀ n ∈ commandNames,
      currentValueOf n (updateServo02Init v s).1 = currentValueOf n s) ∧
    (updateMotor01Init v s =
      ({ s with motor01Init := v }, sendInitMessage MOTOR_01 v)) ∧
    (∀ n ∈ commandNames,
      currentValueOf n (updateMotor01Init v s).1 = currentValueOf n s) ∧
    (updateMotor02Init v s =
      ({ s with motor02Init := v }, sendInitMessage MOTOR_02 v)) ∧
    (∀ n ∈ commandNames,
      currentValueOf n (updateMotor02Init v s).1 = currentValueOf n s) := by
  refine ⟨rfl, ?_, rfl, ?_, rfl, ?_, rfl, ?_, rfl, ?_⟩ <;>
    (intro n hn; fin_cases hn <;> rfl)

/-- Claim C10, witness: setting the servo 1 init value to 42 at the
power-on state stores 42, sends one init message, and leaves the SRV1
current value unchanged. -/
theorem claim10_witness :
    updateServo01Init 42 exState =
      ({ exState with servo01Init := 42 }, sendInitMessage SERVO_01 42) ∧
    currentValueOf SERVO_01 (updateServo01Init 42 exState).1 =
      currentValueOf SERVO_01 exState :=
  ⟨(claim10_init_frame_effect 42 exState).2.2.1,
   (claim10_init_frame_effect 42 exState).2.2.2.1 SERVO_01 (by decide)⟩
